import Mathlib

/-!
Verification of the rental-marketplace repository (airbnb-clone).

The repository's documented core is a reservation availability checker over
half-open date intervals, a Prisma relational schema with cascade deletes and
uniqueness constraints, and a uniform API response envelope.  Dates are
modelled as natural numbers (days); ids are strings, matching the schema's
string (cuid) keys.  The availability checker itself is not present in the
source tree (only the spec describes it), so its definitions are modelled
from the spec; the schema constraints and the response helpers are embedded
from the source.
-/

namespace Airbnb

/-- A half-open date interval [startDate, endDate): the field names follow the
`Reservation` Prisma model (`startDate`, `endDate`). -/
structure DateInterval where
  startDate : Nat
  endDate : Nat
  deriving Repr, DecidableEq

/-- Reservation status, from the Prisma enum `ReservationStatus`. -/
inductive ReservationStatus where
  | PENDING
  | CONFIRMED
  | CANCELLED
  | COMPLETED
  deriving Repr, DecidableEq

/-- A reservation record, embedded from the Prisma `Reservation` model
(id, userId, listingId, startDate, endDate, totalPrice, status). -/
structure Reservation where
  id : String
  userId : String
  listingId : String
  startDate : Nat
  endDate : Nat
  totalPrice : Int
  status : ReservationStatus
  deriving Repr, DecidableEq

/-- The date interval of a reservation. -/
def Reservation.interval (r : Reservation) : DateInterval :=
  ⟨r.startDate, r.endDate⟩

/-- Modelled from the spec: the half-open interval overlap test of §4.1 /
§8 — `overlaps(A,B) == (A.start < B.end && B.start < A.end)`.  No overlap
function exists in the source tree; only the spec defines it. -/
def overlaps (a b : DateInterval) : Bool :=
  decide (a.startDate < b.endDate) && decide (b.startDate < a.endDate)

/-- Result of an availability check: invalid input, available, or a conflict
with existing reservations. -/
inductive AvailabilityResult where
  | invalidInput
  | available
  | conflicting
  deriving Repr, DecidableEq

/-- A reservation blocks the candidate when it is on the target listing, is
not cancelled, and its interval overlaps the candidate interval. -/
def blocks (listingId : String) (candidate : DateInterval) (r : Reservation) : Bool :=
  decide (r.listingId = listingId) && decide (r.status ≠ ReservationStatus.CANCELLED)
    && overlaps candidate r.interval

/-- Modelled from the spec: the Reservation Availability Checker of §4.1.
Zero-length or inverted candidate intervals are rejected as invalid input
before the overlap test runs; otherwise the candidate conflicts iff some
non-cancelled reservation for the listing overlaps it.  The checker is not
present in the source tree; only the spec describes it. -/
def checkAvailability (listingId : String) (candidate : DateInterval)
    (reservations : List Reservation) : AvailabilityResult :=
  if candidate.endDate ≤ candidate.startDate then
    AvailabilityResult.invalidInput
  else if reservations.any (blocks listingId candidate) then
    AvailabilityResult.conflicting
  else
    AvailabilityResult.available

/-- Modelled from the spec: the booking operation runs the availability check
and inserts a new reservation (status defaults to `PENDING`, per the schema's
`@default(PENDING)`) only when the checker reports `available`.  No booking
handler exists in the source tree; only the spec describes the check-then-insert
flow. -/
def createReservation (id userId listingId : String) (candidate : DateInterval)
    (price : Int) (s : List Reservation) : List Reservation :=
  match checkAvailability listingId candidate s with
  | AvailabilityResult.available =>
      ⟨id, userId, listingId, candidate.startDate, candidate.endDate, price,
        ReservationStatus.PENDING⟩ :: s
  | _ => s

/-- Modelled from the spec: the cancel endpoint
(`/api/reservations/[id]/cancel`) sets the reservation's status to
`CANCELLED`. -/
def cancelReservation (rid : String) (s : List Reservation) : List Reservation :=
  s.map (fun r => if r.id = rid then { r with status := ReservationStatus.CANCELLED } else r)

/-- Modelled from the spec: the confirm endpoint
(`/api/reservations/[id]/confirm`) transitions a pending reservation to
`CONFIRMED`. -/
def confirmReservation (rid : String) (s : List Reservation) : List Reservation :=
  s.map (fun r =>
    if r.id = rid ∧ r.status = ReservationStatus.PENDING then
      { r with status := ReservationStatus.CONFIRMED }
    else r)

/-- An operation that creates or updates a reservation. -/
inductive Op where
  | create (id userId listingId : String) (candidate : DateInterval) (price : Int)
  | cancel (rid : String)
  | confirm (rid : String)

/-- Apply one operation to the reservation store. -/
def applyOp (s : List Reservation) : Op → List Reservation
  | Op.create id userId listingId candidate price =>
      createReservation id userId listingId candidate price s
  | Op.cancel rid => cancelReservation rid s
  | Op.confirm rid => confirmReservation rid s

/-- Run a sequence of operations from the empty store: the reachable states of
the reservation system. -/
def run (ops : List Op) : List Reservation :=
  ops.foldl applyOp []

/-- Two reservations are compatible when, if they are on the same listing and
both non-cancelled, their date intervals do not overlap. -/
def compatible (r1 r2 : Reservation) : Prop :=
  r1.listingId = r2.listingId → r1.status ≠ ReservationStatus.CANCELLED →
    r2.status ≠ ReservationStatus.CANCELLED →
    overlaps r1.interval r2.interval = false

/-- The §3 invariant: for a given listing, no two reservations with
non-cancelled status have overlapping date intervals. -/
def noDoubleBooking (s : List Reservation) : Prop :=
  s.Pairwise compatible

/-- Executable version of `noDoubleBooking`. -/
def noDoubleBookingB : List Reservation → Bool
  | [] => true
  | r :: rs =>
      rs.all (fun x =>
        !(decide (r.listingId = x.listingId)
          && decide (r.status ≠ ReservationStatus.CANCELLED)
          && decide (x.status ≠ ReservationStatus.CANCELLED)
          && overlaps r.interval x.interval))
      && noDoubleBookingB rs

/-- A user record, embedded from the Prisma `User` model. -/
structure User where
  id : String
  email : String
  name : Option String
  image : Option String
  hashedPassword : Option String
  favoriteIds : List String
  deriving Repr, DecidableEq

/-- A listing record, embedded from the Prisma `Listing` model. -/
structure Listing where
  id : String
  title : String
  description : String
  imageSrc : List String
  category : String
  roomCount : Int
  bathroomCount : Int
  guestCount : Int
  locationValue : String
  price : Int
  userId : String
  deriving Repr, DecidableEq

/-- A review record, embedded from the Prisma `Review` model. -/
structure Review where
  id : String
  rating : Int
  comment : Option String
  userId : String
  listingId : String
  deriving Repr, DecidableEq

/-- Payment status, from the Prisma enum `PaymentStatus`. -/
inductive PaymentStatus where
  | PENDING
  | COMPLETED
  | FAILED
  | REFUNDED
  deriving Repr, DecidableEq

/-- Payment method, from the Prisma enum `PaymentMethod`. -/
inductive PaymentMethod where
  | STRIPE
  | PAYPAL
  | APPLE_PAY
  | GOOGLE_PAY
  deriving Repr, DecidableEq

/-- A payment record, embedded from the Prisma `Payment` model
(`reservationId` carries a `@unique` constraint). -/
structure Payment where
  id : String
  reservationId : String
  amount : Int
  currency : String
  status : PaymentStatus
  stripeId : Option String
  paypalId : Option String
  method : PaymentMethod
  deriving Repr, DecidableEq

/-- The relational store of the Prisma schema (the tables the claims touch). -/
structure DB where
  users : List User
  listings : List Listing
  reservations : List Reservation
  reviews : List Review
  payments : List Payment
  deriving Repr, DecidableEq

/-- A listing is cascade-deleted by `deleteUser uid` when it is owned by that
user (`Listing.user` carries `onDelete: Cascade`). -/
def listingDeletedBy (db : DB) (uid : String) (lid : String) : Bool :=
  db.listings.any (fun l => decide (l.id = lid) && decide (l.userId = uid))

/-- A reservation is cascade-deleted by `deleteUser uid` when it was made by
that user or its listing is deleted (`Reservation.user` and
`Reservation.listing` both carry `onDelete: Cascade`). -/
def reservationDeletedBy (db : DB) (uid : String) (r : Reservation) : Bool :=
  decide (r.userId = uid) || listingDeletedBy db uid r.listingId

/-- Modelled from the spec: the storage layer's cascade delete of a `User`.
The Prisma schema declares `onDelete: Cascade` on the `user` relation of
`Listing`, `Reservation` and `Review`, and on the `listing` relation of
`Reservation` and `Review`, and on the `reservation` relation of `Payment`;
the enforcing engine is the database, not code in this tree. -/
def deleteUser (uid : String) (db : DB) : DB :=
  { users := db.users.filter (fun u => decide (u.id ≠ uid))
    listings := db.listings.filter (fun l => decide (l.userId ≠ uid))
    reservations := db.reservations.filter (fun r => !reservationDeletedBy db uid r)
    reviews := db.reviews.filter (fun v =>
      decide (v.userId ≠ uid) && !listingDeletedBy db uid v.listingId)
    payments := db.payments.filter (fun p =>
      !(db.reservations.any (fun r =>
        decide (r.id = p.reservationId) && reservationDeletedBy db uid r))) }

/-- Modelled from the spec: the storage layer's cascade delete of a
`Reservation`; its `Payment` (related via `reservationId`, `onDelete:
Cascade`) is removed with it. -/
def deleteReservation (rid : String) (db : DB) : DB :=
  { db with
    reservations := db.reservations.filter (fun r => decide (r.id ≠ rid))
    payments := db.payments.filter (fun p => decide (p.reservationId ≠ rid)) }

/-- Whether a review for the (user, listing) pair already persists. -/
def hasReviewFor (userId listingId : String) (reviews : List Review) : Bool :=
  reviews.any (fun r => decide (r.userId = userId) && decide (r.listingId = listingId))

/-- Modelled from the spec: review creation under the storage layer's
`@@unique([userId, listingId])` constraint — a create attempt for an existing
pair fails with a conflict, otherwise the review is inserted. -/
def createReview (rv : Review) (reviews : List Review) : Except String (List Review) :=
  if hasReviewFor rv.userId rv.listingId reviews then
    Except.error "Unique constraint violation"
  else
    Except.ok (rv :: reviews)

/-- A failed create leaves the store unchanged. -/
def applyCreateReview (reviews : List Review) (rv : Review) : List Review :=
  match createReview rv reviews with
  | Except.ok reviews2 => reviews2
  | Except.error _ => reviews

/-- Run a sequence of review-create attempts from the empty store. -/
def runReviewCreates (attempts : List Review) : List Review :=
  attempts.foldl applyCreateReview []

/-- At most one review per (user, listing) pair. -/
def uniquePerPair : List Review → Bool
  | [] => true
  | r :: rs => !(hasReviewFor r.userId r.listingId rs) && uniquePerPair rs

/-- Whether a payment for the reservation already persists. -/
def hasPaymentFor (reservationId : String) (payments : List Payment) : Bool :=
  payments.any (fun p => decide (p.reservationId = reservationId))

/-- Modelled from the spec: payment creation under the storage layer's
`@unique` constraint on `Payment.reservationId`. -/
def createPayment (p : Payment) (payments : List Payment) : Except String (List Payment) :=
  if hasPaymentFor p.reservationId payments then
    Except.error "Unique constraint violation"
  else
    Except.ok (p :: payments)

/-- A failed payment create leaves the store unchanged. -/
def applyCreatePayment (payments : List Payment) (p : Payment) : List Payment :=
  match createPayment p payments with
  | Except.ok payments2 => payments2
  | Except.error _ => payments

/-- Run a sequence of payment-create attempts from the empty store. -/
def runPaymentCreates (attempts : List Payment) : List Payment :=
  attempts.foldl applyCreatePayment []

/-- At most one payment per reservation. -/
def uniquePerReservation : List Payment → Bool
  | [] => true
  | p :: ps => !(hasPaymentFor p.reservationId ps) && uniquePerReservation ps

/-- Pagination metadata of the `ApiResponse` interface. -/
structure Meta where
  page : Option Nat
  limit : Option Nat
  total : Option Nat
  totalPages : Option Nat
  deriving Repr, DecidableEq

/-- The standardized API response envelope, embedded from the source's
`ApiResponse<T>` interface: `success`, optional `data`, `error`, `message`
and `meta` (absent optional fields are `none`). -/
structure ApiResponse (T : Type) where
  success : Bool
  data : Option T
  error : Option String
  message : Option String
  meta : Option Meta
  deriving Repr, DecidableEq

/-- Embedded from the source's `successResponse<T>(data, message?, meta?)`:
returns the envelope with `success: true` and the given data. -/
def successResponse {T : Type} (data : T) (message : Option String)
    (meta : Option Meta) : ApiResponse T :=
  { success := true, data := some data, error := none,
    message := message, meta := meta }

/-- An HTTP response: a status code and a JSON body (here an envelope with no
data payload, as produced by `NextResponse.json({ success: false, error })`). -/
structure HttpResponse where
  status : Nat
  body : ApiResponse Unit
  deriving Repr, DecidableEq

/-- Embedded from the source's `errorResponse(error, statusCode)`: returns
`NextResponse.json({ success: false, error }, { status: statusCode })` — a
body holding exactly the `success` flag and the given error string. -/
def errorResponse (error : String) (statusCode : Nat) : HttpResponse :=
  { status := statusCode,
    body := { success := false, data := none, error := some error,
              message := none, meta := none } }

/-- The source declares `statusCode: number = 400`: calling `errorResponse`
without an explicit status code uses 400. -/
def errorResponseDefault (error : String) : HttpResponse :=
  errorResponse error 400

/-- C1: for every candidate half-open interval A and every existing interval
B, the overlap predicate returns true iff A.start < B.end and B.start <
A.end. -/
theorem overlaps_iff_strict_lt (a b : DateInterval) :
    overlaps a b = true ↔ (a.startDate < b.endDate ∧ b.startDate < a.endDate) := by
  simp [overlaps]

/-- C3: every candidate interval with start ≥ end is rejected as invalid
input, for every listing and every set of existing reservations — the
rejection does not depend on the reservations. -/
theorem inverted_candidate_rejected (listingId : String) (c : DateInterval)
    (h : c.endDate ≤ c.startDate) (rs : List Reservation) :
    checkAvailability listingId c rs = AvailabilityResult.invalidInput := by
  simp [checkAvailability, h]

/-- C3 witness: the inverted candidate [20240610, 20240608) is rejected even
against a nonempty reservation list. -/
theorem inverted_candidate_rejected_witness :
    checkAvailability "L" ⟨20240610, 20240608⟩
      [⟨"r1", "u1", "L", 20240601, 20240605, 100, ReservationStatus.CONFIRMED⟩]
      = AvailabilityResult.invalidInput :=
  inverted_candidate_rejected "L" ⟨20240610, 20240608⟩ (by decide) _

/-- C4: adjacent intervals (A.start = B.end or B.start = A.end) never
overlap, so a candidate stay starting exactly when an existing reservation
ends is reported as available. -/
theorem adjacent_intervals_never_overlap (a b : DateInterval)
    (h : a.startDate = b.endDate ∨ b.startDate = a.endDate) :
    overlaps a b = false := by
  rcases h with h | h <;> simp [overlaps, h]

/-- C4 witness: the candidate [2024-06-05, 2024-06-10) is adjacent to the
existing [2024-06-01, 2024-06-05) and does not overlap it. -/
theorem adjacent_intervals_never_overlap_witness :
    overlaps ⟨20240605, 20240610⟩ ⟨20240601, 20240605⟩ = false :=
  adjacent_intervals_never_overlap ⟨20240605, 20240610⟩ ⟨20240601, 20240605⟩
    (Or.inl rfl)

/-- C7: `successResponse` yields the envelope with `success = true`, the
given data and no error; `errorResponse` yields `success = false`, exactly
the given error string, no data, and the given status code — no other detail
appears in either body. -/
theorem response_envelope_uniform {T : Type} (d : T) (msg : Option String)
    (m : Option Meta) (e : String) (code : Nat) :
    (successResponse d msg m).success = true ∧
    (successResponse d msg m).data = some d ∧
    (successResponse d msg m).error = none ∧
    (errorResponse e code).body.success = false ∧
    (errorResponse e code).body.error = some e ∧
    (errorResponse e code).body.data = none ∧
    (errorResponse e code).body.message = none ∧
    (errorResponse e code).status = code :=
  ⟨rfl, rfl, rfl, rfl, rfl, rfl, rfl, rfl⟩

/-- C10: `errorResponse` called without an explicit status code returns HTTP
status 400, and for every call the body is exactly
`{ success := false, error := some e }` with all optional payload fields
absent. -/
theorem errorResponse_default_400 (e : String) (code : Nat) :
    errorResponseDefault e = errorResponse e 400 ∧
    (errorResponseDefault e).status = 400 ∧
    (errorResponse e code).body =
      { success := false, data := none, error := some e,
        message := none, meta := none } :=
  ⟨rfl, rfl, rfl⟩

/-- When the checker reports `available`, no reservation in the store blocks
the candidate. -/
theorem checkAvailability_available_no_blocks {listingId : String}
    {c : DateInterval} {s : List Reservation}
    (h : checkAvailability listingId c s = AvailabilityResult.available) :
    ∀ r ∈ s, blocks listingId c r = false := by
  intro r hr
  by_cases hinv : c.endDate ≤ c.startDate
  · simp [checkAvailability, hinv] at h
  · by_cases hany : s.any (blocks listingId c) = true
    · simp [checkAvailability, hinv, hany] at h
    · rw [Bool.not_eq_true, List.any_eq_false] at hany
      exact Bool.eq_false_iff.mpr (hany r hr)

/-- Guarded creation preserves the no-double-booking invariant. -/
theorem noDoubleBooking_createReservation (id userId listingId : String)
    (c : DateInterval) (price : Int) (s : List Reservation)
    (h : noDoubleBooking s) :
    noDoubleBooking (createReservation id userId listingId c price s) := by
  unfold createReservation
  split
  case h_1 heq =>
    refine List.pairwise_cons.mpr ⟨?_, h⟩
    intro r hr hlid hst1 hst2
    have hb := checkAvailability_available_no_blocks heq r hr
    unfold blocks at hb
    simp only [Bool.and_eq_false_iff, decide_eq_false_iff_not] at hb
    rcases hb with (hb | hb) | hb
    · exact absurd hlid.symm hb
    · exact absurd hst2 hb
    · exact hb
  case h_2 heq => exact h

/-- Cancelling respects reservation compatibility. -/
theorem compatible_cancel (rid : String) (a b : Reservation)
    (h : compatible a b) :
    compatible (if a.id = rid then { a with status := ReservationStatus.CANCELLED } else a)
      (if b.id = rid then { b with status := ReservationStatus.CANCELLED } else b) := by
  intro hlid hst1 hst2
  by_cases ha : a.id = rid <;> by_cases hb : b.id = rid <;>
    simp [ha, hb, Reservation.interval] at hlid hst1 hst2 ⊢
  exact h hlid hst1 hst2

/-- Confirming respects reservation compatibility. -/
theorem compatible_confirm (rid : String) (a b : Reservation)
    (h : compatible a b) :
    compatible
      (if a.id = rid ∧ a.status = ReservationStatus.PENDING then
        { a with status := ReservationStatus.CONFIRMED } else a)
      (if b.id = rid ∧ b.status = ReservationStatus.PENDING then
        { b with status := ReservationStatus.CONFIRMED } else b) := by
  intro hlid hst1 hst2
  by_cases ha : a.id = rid ∧ a.status = ReservationStatus.PENDING <;>
    by_cases hb : b.id = rid ∧ b.status = ReservationStatus.PENDING <;>
    simp [ha, hb, Reservation.interval] at hlid hst1 hst2 ⊢
  · exact h hlid (by simp [ha.2]) (by simp [hb.2])
  · exact h hlid (by simp [ha.2]) hst2
  · exact h hlid hst1 (by simp [hb.2])
  · exact h hlid hst1 hst2

/-- Every operation that creates or updates a reservation preserves the
no-double-booking invariant. -/
theorem noDoubleBooking_applyOp (s : List Reservation) (op : Op)
    (h : noDoubleBooking s) : noDoubleBooking (applyOp s op) := by
  cases op with
  | create id userId listingId c price =>
      exact noDoubleBooking_createReservation id userId listingId c price s h
  | cancel rid =>
      simp only [applyOp, cancelReservation]
      exact List.Pairwise.map _ (fun a b hab => compatible_cancel rid a b hab) h
  | confirm rid =>
      simp only [applyOp, confirmReservation]
      exact List.Pairwise.map _ (fun a b hab => compatible_confirm rid a b hab) h

/-- C2: every state reachable by create/cancel/confirm operations satisfies
the §3 invariant — no two non-cancelled reservations of a listing overlap —
and every single operation preserves it. -/
theorem no_double_booking_invariant :
    (∀ ops : List Op, noDoubleBooking (run ops)) ∧
    (∀ (s : List Reservation) (op : Op), noDoubleBooking s → noDoubleBooking (applyOp s op)) := by
  constructor
  · intro ops
    have hfold : ∀ (l : List Op) (s : List Reservation),
        noDoubleBooking s → noDoubleBooking (l.foldl applyOp s) := by
      intro l
      induction l with
      | nil => intro s h; exact h
      | cons a as ih => intro s h; exact ih _ (noDoubleBooking_applyOp s a h)
    exact hfold ops [] List.Pairwise.nil
  · exact noDoubleBooking_applyOp

/-- C2 witness: a reachable state after two bookings (the second conflicting,
hence refused) satisfies the invariant, and applying a cancel to the empty
store preserves it. -/
theorem no_double_booking_invariant_witness :
    noDoubleBooking (run
      [Op.create "r1" "u1" "L" ⟨20240601, 20240605⟩ 100,
       Op.create "r2" "u2" "L" ⟨20240603, 20240607⟩ 100]) ∧
    noDoubleBooking (applyOp [] (Op.cancel "r1")) :=
  ⟨no_double_booking_invariant.1 _,
   no_double_booking_invariant.2 [] (Op.cancel "r1") List.Pairwise.nil⟩

/-- C8: an interleaving of two booking attempts on listing "L" with
overlapping candidate intervals in which both availability checks run
against the same initial state: both checks pass, and the state after both
inserts violates the no-double-booking invariant. -/
theorem race_two_bookings_both_pass :
    checkAvailability "L" ⟨20240601, 20240605⟩ [] = AvailabilityResult.available ∧
    checkAvailability "L" ⟨20240603, 20240607⟩ [] = AvailabilityResult.available ∧
    overlaps ⟨20240601, 20240605⟩ ⟨20240603, 20240607⟩ = true ∧
    noDoubleBookingB
      [⟨"r2", "u2", "L", 20240603, 20240607, 100, ReservationStatus.PENDING⟩,
       ⟨"r1", "u1", "L", 20240601, 20240605, 100, ReservationStatus.PENDING⟩]
      = false := by
  refine ⟨?_, ?_, ?_, ?_⟩ <;> decide

/-- C5: after deleting a user, no listing owned by them, no reservation made
by them, and no review authored by them persists. -/
theorem deleteUser_cascades (db : DB) (uid : String) :
    ((deleteUser uid db).listings.all (fun l => decide (l.userId ≠ uid))) = true ∧
    ((deleteUser uid db).reservations.all (fun r => decide (r.userId ≠ uid))) = true ∧
    ((deleteUser uid db).reviews.all (fun v => decide (v.userId ≠ uid))) = true := by
  refine ⟨?_, ?_, ?_⟩ <;>
    simp only [deleteUser, List.all_eq_true, List.mem_filter] <;>
    rintro x ⟨-, hx⟩
  · exact hx
  · rw [Bool.not_eq_true'] at hx
    simp only [reservationDeletedBy, Bool.or_eq_false_iff, decide_eq_false_iff_not] at hx
    exact decide_eq_true hx.1
  · simp only [Bool.and_eq_true] at hx
    exact hx.1

/-- A single review-create attempt preserves per-pair uniqueness. -/
theorem uniquePerPair_applyCreateReview (reviews : List Review) (rv : Review)
    (h : uniquePerPair reviews = true) :
    uniquePerPair (applyCreateReview reviews rv) = true := by
  unfold applyCreateReview createReview
  by_cases hdup : hasReviewFor rv.userId rv.listingId reviews = true
  · simp [hdup, h]
  · rw [Bool.not_eq_true] at hdup
    simp [hdup, uniquePerPair, h]

/-- Any sequence of review-create attempts starting from a per-pair-unique
store keeps it per-pair unique. -/
theorem uniquePerPair_foldl (attempts : List Review) :
    ∀ reviews, uniquePerPair reviews = true →
      uniquePerPair (attempts.foldl applyCreateReview reviews) = true := by
  induction attempts with
  | nil => intro reviews h; exact h
  | cons a as ih =>
      intro reviews h
      exact ih _ (uniquePerPair_applyCreateReview reviews a h)

/-- C6: after any sequence of review-create attempts, at most one review
persists per (user, listing) pair, and a duplicate attempt fails with a
conflict instead of producing a second record. -/
theorem review_unique_per_pair (attempts : List Review) :
    uniquePerPair (runReviewCreates attempts) = true ∧
    ∀ (rv : Review) (reviews : List Review),
      hasReviewFor rv.userId rv.listingId reviews = true →
      createReview rv reviews = Except.error "Unique constraint violation" := by
  constructor
  · exact uniquePerPair_foldl attempts [] rfl
  · intro rv reviews h
    simp [createReview, h]

/-- C6 witness: two create attempts for the pair (u1, L1) leave exactly one
review, and the duplicate attempt reports a conflict. -/
theorem review_unique_per_pair_witness :
    uniquePerPair (runReviewCreates
      [⟨"v1", 5, none, "u1", "L1"⟩, ⟨"v2", 4, none, "u1", "L1"⟩]) = true ∧
    createReview ⟨"v2", 4, none, "u1", "L1"⟩ [⟨"v1", 5, none, "u1", "L1"⟩]
      = Except.error "Unique constraint violation" :=
  ⟨(review_unique_per_pair
      [⟨"v1", 5, none, "u1", "L1"⟩, ⟨"v2", 4, none, "u1", "L1"⟩]).1,
   (review_unique_per_pair []).2 ⟨"v2", 4, none, "u1", "L1"⟩
      [⟨"v1", 5, none, "u1", "L1"⟩] (by decide)⟩

/-- A single payment-create attempt preserves per-reservation uniqueness. -/
theorem uniquePerReservation_applyCreatePayment (payments : List Payment)
    (p : Payment) (h : uniquePerReservation payments = true) :
    uniquePerReservation (applyCreatePayment payments p) = true := by
  unfold applyCreatePayment createPayment
  by_cases hdup : hasPaymentFor p.reservationId payments = true
  · simp [hdup, h]
  · rw [Bool.not_eq_true] at hdup
    simp [hdup, uniquePerReservation, h]

/-- Any sequence of payment-create attempts starting from a unique store
keeps it unique. -/
theorem uniquePerReservation_foldl (attempts : List Payment) :
    ∀ payments, uniquePerReservation payments = true →
      uniquePerReservation (attempts.foldl applyCreatePayment payments) = true := by
  induction attempts with
  | nil => intro payments h; exact h
  | cons a as ih =>
      intro payments h
      exact ih _ (uniquePerReservation_applyCreatePayment payments a h)

/-- C9: after any sequence of payment-create attempts each reservation has at
most one payment, and deleting a reservation removes both the reservation and
its payment. -/
theorem payment_unique_and_cascade (attempts : List Payment) (db : DB)
    (rid : String) :
    uniquePerReservation (runPaymentCreates attempts) = true ∧
    ((deleteReservation rid db).payments.all
      (fun p => decide (p.reservationId ≠ rid))) = true ∧
    ((deleteReservation rid db).reservations.all
      (fun r => decide (r.id ≠ rid))) = true := by
  refine ⟨uniquePerReservation_foldl attempts [] rfl, ?_, ?_⟩ <;>
    simp only [deleteReservation, List.all_eq_true, List.mem_filter] <;>
    rintro x ⟨-, hx⟩ <;> exact hx

end Airbnb
